import Mathlib

/-
Shallow embedding of adobe/twist-configuration:
  * src/internal/LibraryLoader.js  (classes LibraryInfo, LibraryLoader)
  * src/TwistConfiguration.js      (class TwistConfiguration)

JavaScript values that the code never inspects structurally (option values,
plugin options, the options bag passed to `load`) are modelled as their
JSON.stringify serialization (`Value`), since the code compares them only via
`JSON.stringify` equality.  The filesystem / module system (require.resolve,
package.json reading, .twistrc lookup) is modelled as an environment `Env` of
pure functions, matching the spec's treatment of resolution and file I/O as
black-box primitives.  The two mutually referring objects (the
TwistConfiguration and its LibraryLoader) are folded into one record
`LoaderState`; `mergeCount` is instrumentation only (it counts invocations of
`mergeConfig` and corresponds to no source field).  JavaScript exceptions
leave mutated state behind, so every stateful operation returns an `Outcome`
carrying the post-state both on normal return and on throw.  The recursion
between `load` and `mergeConfig` is bounded by explicit fuel; `outOfFuel`
marks a run that was cut short (it corresponds to no source behaviour).
-/

namespace TwistConfig

/-- Value is an opaque JavaScript value, represented by its JSON.stringify
serialization.  The source only ever compares such values with
`JSON.stringify(a) === JSON.stringify(b)` (LibraryLoader.load), stores them,
or passes them through, so this representation is faithful. -/
structure Value where
  json : String
deriving DecidableEq, Repr

/-- Truthiness of a JavaScript value in terms of its JSON serialization:
`false`, `0`, the empty string, `null` and `undefined` are falsy; every other
value (objects in particular) is truthy. -/
def Value.truthy (v : Value) : Bool :=
  !(v.json == "false" || v.json == "0" || v.json == "\"\"" || v.json == "null"
    || v.json == "undefined")

/-- JavaScript empty object literal, the default second argument in
`_forEachConfig` callbacks and the default `options` of `load`. -/
def emptyObjVal : Value := Value.mk "\x7b\x7d"

/-- Models `x || d` for a possibly-undefined JavaScript string `x`:
undefined and the empty string are falsy and select the default. -/
def jsOr : Option String → String → String
  | none, d => d
  | some s, d => if s = "" then d else s

/-- The `inherits` field of a decorator declaration: either a bare string or
an object with optional `module` / `export` fields
(TwistConfiguration.mergeConfig normalizes the string form). -/
inductive InheritsVal where
  | str (s : String)
  | obj (module : Option String) (exportName : Option String)
deriving DecidableEq, Repr

/-- A decorator or component declaration object.  `exportName` stands for the
source's `export` field (a reserved word in Lean).  An absent field is the
JavaScript `undefined`. -/
structure Decl where
  module : Option String := none
  exportName : Option String := none
  inherits : Option InheritsVal := none
deriving DecidableEq, Repr

/-- The empty declaration object, JavaScript `\x7b\x7d`. -/
def emptyDecl : Decl := {}

/-- JavaScript objects are always truthy. -/
def Decl.truthy (_ : Decl) : Bool := true

/-- One entry of the array form accepted by `_forEachConfig`: either a bare
name or a `[name, value]` pair whose second component may be absent. -/
inductive CEntry (α : Type) where
  | bare (name : String)
  | pair (name : String) (val : Option α)
deriving DecidableEq, Repr

/-- A `.twistrc` section as accepted by `_forEachConfig`: absent, an array of
entries (a `none` element is a falsy entry, skipped), or a key-value map
(modelled as a list in JavaScript property-insertion order). -/
inductive ConfigEntries (α : Type) where
  | absent
  | arr (entries : List (Option (CEntry α)))
  | map (entries : List (String × α))
deriving DecidableEq, Repr

/-- Embedding of `TwistConfiguration._forEachConfig`, returning the ordered
list of `(key, value)` callback applications.  `truthy` evaluates the
JavaScript truthiness of a present pair value (the source applies
`entry[1] || \x7b\x7d`), `dflt` is the default `\x7b\x7d` value. -/
def forEachConfig {α : Type} (truthy : α → Bool) (dflt : α) :
    ConfigEntries α → List (String × α)
  | .absent => []
  | .arr entries => entries.filterMap (fun e =>
      match e with
      | none => none
      | some (.bare name) => some (name, dflt)
      | some (.pair name none) => some (name, dflt)
      | some (.pair name (some v)) => some (name, if truthy v then v else dflt))
  | .map entries => entries

/-- A parsed `.twistrc` configuration document (§3 of the spec; the keys read
by `TwistConfiguration.mergeConfig`).  `context` is `none` when the document
has no `context` key (falsy in the source's `if (config.context)`). -/
inductive ConfigDoc where
  | mk (libraries : ConfigEntries Value)
       (decorators : ConfigEntries Decl)
       (components : ConfigEntries Decl)
       (babelPlugins : ConfigEntries Value)
       (options : ConfigEntries Value)
       (context : Option (List (String × ConfigDoc)))

def ConfigDoc.libraries : ConfigDoc → ConfigEntries Value
  | .mk l _ _ _ _ _ => l

def ConfigDoc.decorators : ConfigDoc → ConfigEntries Decl
  | .mk _ d _ _ _ _ => d

def ConfigDoc.components : ConfigDoc → ConfigEntries Decl
  | .mk _ _ c _ _ _ => c

def ConfigDoc.babelPlugins : ConfigDoc → ConfigEntries Value
  | .mk _ _ _ b _ _ => b

def ConfigDoc.options : ConfigDoc → ConfigEntries Value
  | .mk _ _ _ _ o _ => o

def ConfigDoc.context : ConfigDoc → Option (List (String × ConfigDoc))
  | .mk _ _ _ _ _ c => c

/-- The document `mergeConfig` sees when called with `undefined`: its default
parameter is `\x7b\x7d`, every section read is absent. -/
def emptyDoc : ConfigDoc := .mk .absent .absent .absent .absent .absent none

/-- A `LibraryInfo` record (LibraryLoader.js).  `mkRoot` is a record built
without a parent (the sentinel root), `mkChild` one built with
`parentLibrary` set, as in `new LibraryInfo(path, options, parent)`.  Fields
`name` and `version` come from the manifest at `path/package.json`. -/
inductive LibraryInfo where
  | mkRoot (path : Option String) (options : Value) (name version : String)
  | mkChild (path : Option String) (options : Value) (name version : String)
      (parent : LibraryInfo)
deriving DecidableEq, Repr

def LibraryInfo.path : LibraryInfo → Option String
  | .mkRoot p _ _ _ => p
  | .mkChild p _ _ _ _ => p

def LibraryInfo.options : LibraryInfo → Value
  | .mkRoot _ o _ _ => o
  | .mkChild _ o _ _ _ => o

def LibraryInfo.name : LibraryInfo → String
  | .mkRoot _ _ n _ => n
  | .mkChild _ _ n _ _ => n

def LibraryInfo.version : LibraryInfo → String
  | .mkRoot _ _ _ v => v
  | .mkChild _ _ _ v _ => v

def LibraryInfo.parentLibrary : LibraryInfo → Option LibraryInfo
  | .mkRoot _ _ _ _ => none
  | .mkChild _ _ _ _ p => some p

/-- The sentinel root record built in the LibraryLoader constructor:
`new LibraryInfo()` followed by `name = "(root)"; version = ""`.  Its
`options` field is the JavaScript `undefined`. -/
def rootSentinel : LibraryInfo :=
  .mkRoot none (Value.mk "undefined") "(root)" ""

/-- A run of `n` spaces, as built by the indentation loop in
`getLibraryChainStackTrace`. -/
def spaces (n : Nat) : String := String.join (List.replicate n " ")

/-- Renders `name` plus version as in getLibraryChainStackTrace:
the version is appended after a space only when truthy (non-empty). -/
def renderNameVersion (name version : String) : String :=
  name ++ (if version ≠ "" then " " ++ version else "")

/-- Embedding of the while-loop of `LibraryInfo.getLibraryChainStackTrace`:
walks the parent chain, pushing one line per record; `indent` starts at 4 and
grows by 2 per level, and every line after the first is decorated with the
loaded-by marker. -/
def traceLines : LibraryInfo → Nat → Bool → List String
  | .mkRoot _ _ n v, indent, isFirstLine =>
      [spaces indent ++
        (if isFirstLine then renderNameVersion n v
         else "└─ loaded by " ++ renderNameVersion n v)]
  | .mkChild _ _ n v p, indent, isFirstLine =>
      (spaces indent ++
        (if isFirstLine then renderNameVersion n v
         else "└─ loaded by " ++ renderNameVersion n v))
      :: traceLines p (indent + 2) false

/-- Embedding of `LibraryInfo.getLibraryChainStackTrace`: the collected lines
joined with newlines. -/
def LibraryInfo.getLibraryChainStackTrace (l : LibraryInfo) : String :=
  String.intercalate "\n" (traceLines l 4 true)

/-- The identity chain of a record: its own `(name, version)` followed by
those of its ancestors up to the sentinel root. -/
def LibraryInfo.chain : LibraryInfo → List (String × String)
  | .mkRoot _ _ n v => [(n, v)]
  | .mkChild _ _ n v p => (n, v) :: p.chain

/-- The ancestors of a record, excluding the record itself. -/
def LibraryInfo.ancestors : LibraryInfo → List (String × String)
  | .mkRoot _ _ _ _ => []
  | .mkChild _ _ _ _ p => p.chain

/-- The errors thrown by the two source files; each constructor corresponds
to one `throw new Error(...)` site and carries the exact message. -/
inductive TwistError where
  | resolutionError (message : String)
  | versionConflictError (message : String)
  | configParseError (message : String)
  | unknownOptionError (message : String)
deriving DecidableEq, Repr

/-- The combined mutable state of one TwistConfiguration and its
LibraryLoader.  `context`, `options`, `components`, `decorators`,
`babelPlugins` are the TwistConfiguration fields (`_pathAliases` and the
derived getters are omitted: no claim touches them); `libraryInfos` and
`currentLibrary` are the LibraryLoader fields.  `mergeCount` is
instrumentation counting `mergeConfig` invocations. -/
structure LoaderState where
  context : String
  options : List (String × Value)
  components : List (String × Decl)
  decorators : List (String × Decl)
  babelPlugins : List (String × Value)
  libraryInfos : List LibraryInfo
  currentLibrary : LibraryInfo
  mergeCount : Nat
deriving DecidableEq, Repr

/-- Result of a stateful operation: normal return, a thrown error (JavaScript
exceptions do not roll back state, so the post-throw state is carried), or
fuel exhaustion of the bounded interpreter. -/
inductive Outcome where
  | ok (s : LoaderState)
  | err (e : TwistError) (s : LoaderState)
  | outOfFuel
deriving DecidableEq, Repr

def Outcome.postState : Outcome → Option LoaderState
  | .ok s => some s
  | .err _ s => some s
  | .outOfFuel => none

def Outcome.isOk : Outcome → Bool
  | .ok _ => true
  | _ => false

def Outcome.isErr : Outcome → Bool
  | .err _ _ => true
  | _ => false

/-- JavaScript object property read: the first (unique) binding of `key`. -/
def lookupVal {α : Type} (l : List (String × α)) (key : String) : Option α :=
  (l.find? (fun kv => kv.1 == key)).map (fun kv => kv.2)

/-- JavaScript object property write: overwrite in place when the key exists
(keeping its position), append otherwise. -/
def objSet {α : Type} (l : List (String × α)) (key : String) (v : α) :
    List (String × α) :=
  if l.any (fun kv => kv.1 == key) then
    l.map (fun kv => if kv.1 == key then (key, v) else kv)
  else l ++ [(key, v)]

/-- `Object.assign(\x7b\x7d, base, over)`: keys of `base` in order, then the
new keys of `over` appended, with values of `over` winning. -/
def objAssign {α : Type} (base over : List (String × α)) :
    List (String × α) :=
  over.foldl (fun acc kv => objSet acc kv.1 kv.2) base

/-- The DEFAULT_OPTIONS table at the top of TwistConfiguration.js. -/
def DEFAULT_OPTIONS : List (String × Value) :=
  [("includeBabelRuntime", Value.mk "false"),
   ("jsxSourceLines", Value.mk "false"),
   ("polyfill", Value.mk "true"),
   ("regenerator", Value.mk "false"),
   ("targets", Value.mk "\x7b\"node\":\"current\"\x7d"),
   ("transformImports", Value.mk "true"),
   ("useBabelModuleResolver", Value.mk "true")]

/-- The state built by the TwistConfiguration constructor before its initial
`addLibrary` call: `context = contextName || 'node'`, `_options =
Object.assign(\x7b\x7d, DEFAULT_OPTIONS, options)`, empty accumulators, and a
fresh LibraryLoader whose registry is empty and whose current library is the
sentinel.  (The constructor then calls `addLibrary(options.root ||
process.cwd())` unless `options.root === null`; library loading is exercised
through explicit `load` calls below.) -/
def initState (contextName : Option String)
    (ctorOptions : List (String × Value)) : LoaderState :=
  { context := jsOr contextName "node"
    options := objAssign DEFAULT_OPTIONS ctorOptions
    components := []
    decorators := []
    babelPlugins := []
    libraryInfos := []
    currentLibrary := rootSentinel
    mergeCount := 0 }

/-- Embedding of `TwistConfiguration.setOption`: throws when the name is not
an own property of `_options`, otherwise overwrites it. -/
def setOption (s : LoaderState) (name : String) (value : Value) : Outcome :=
  if s.options.any (fun kv => kv.1 == name) then
    .ok { s with options := objSet s.options name value }
  else
    .err (.unknownOptionError
      ("Twist Configuration option " ++ name ++ " is not defined.")) s

/-- The own property names of `Object.prototype`.  `_options` is a plain
object (created by `Object.assign(\x7b\x7d, ...)`), so a property read on it that
misses every own key continues up the prototype chain and finds these, each
bound to a built-in function (for `__proto__`, an accessor). -/
def OBJECT_PROTOTYPE_KEYS : List String :=
  ["constructor", "hasOwnProperty", "isPrototypeOf", "propertyIsEnumerable",
   "toLocaleString", "toString", "valueOf", "__defineGetter__",
   "__defineSetter__", "__lookupGetter__", "__lookupSetter__", "__proto__"]

/-- Result of the JavaScript property read `obj[name]` on a plain object: the
value of an own property, an inherited `Object.prototype` member (a built-in
function, which has no JSON serialization and so is not a `Value`), or
`undefined`. -/
inductive JsProp where
  | val (v : Value)
  | protoFn (name : String)
  | undefinedVal
deriving DecidableEq, Repr

/-- The JavaScript property read `obj[name]` on a plain object: the own
property if present, otherwise the inherited `Object.prototype` member,
otherwise `undefined`. -/
def jsPropRead (obj : List (String × Value)) (name : String) : JsProp :=
  match lookupVal obj name with
  | some v => .val v
  | none => if name ∈ OBJECT_PROTOTYPE_KEYS then .protoFn name else .undefinedVal

/-- Embedding of `TwistConfiguration.getOption`:
`return this._options[name]`, a full prototype-chain property read (unlike
`setOption`, whose guard `hasOwnProperty` checks own keys only). -/
def getOption (s : LoaderState) (name : String) : JsProp :=
  jsPropRead s.options name

/-- Embedding of `TwistConfiguration.addComponent`. -/
def addComponent (s : LoaderState) (name : String) (config : Decl) :
    LoaderState :=
  { s with components := objSet s.components name config }

/-- Embedding of `TwistConfiguration.addDecorator`. -/
def addDecorator (s : LoaderState) (name : String) (config : Decl) :
    LoaderState :=
  { s with decorators := objSet s.decorators name config }

/-- Embedding of `TwistConfiguration.addBabelPlugin`: appends unless an entry
with the same plugin reference is already present. -/
def addBabelPlugin (s : LoaderState) (plugin : String) (options : Value) :
    LoaderState :=
  if s.babelPlugins.any (fun item => item.1 == plugin) then s
  else { s with babelPlugins := s.babelPlugins ++ [(plugin, options)] }

/-- Truthiness of the `inherits` field in `if (config.inherits)`: absent and
the empty string are falsy, every object and non-empty string is truthy. -/
def inhTruthy : Option InheritsVal → Bool
  | none => false
  | some (.str s) => !(s == "")
  | some (.obj _ _) => true

/-- Normalization applied to a truthy `inherits` value: a bare string `s`
becomes `\x7b export: s \x7d`, then `inherits.module` is defaulted to the
current library's name. -/
def normalizeInherits (libName : String) : InheritsVal → InheritsVal
  | .str s => .obj (some libName) (some s)
  | .obj m e => .obj (some (jsOr m libName)) e

/-- The decorator callback body in `TwistConfiguration.mergeConfig`:
`config.module = config.module || currentLibrary.name`,
`config.export = config.export || name`, and normalization of a truthy
`inherits`. -/
def normalizeDecorator (libName name : String) (config : Decl) : Decl :=
  { module := some (jsOr config.module libName)
    exportName := some (jsOr config.exportName name)
    inherits :=
      if inhTruthy config.inherits then config.inherits.map (normalizeInherits libName)
      else config.inherits }

/-- The component callback body in `TwistConfiguration.mergeConfig`: the same
module / export defaulting, with `inherits` left untouched. -/
def normalizeComponent (libName name : String) (config : Decl) : Decl :=
  { config with
      module := some (jsOr config.module libName)
      exportName := some (jsOr config.exportName name) }

/-- The decorators step of `mergeConfig`, folded over the entries produced by
`_forEachConfig`. -/
def mergeDecoratorEntries (s : LoaderState)
    (entries : List (String × Decl)) : LoaderState :=
  entries.foldl
    (fun t nc => addDecorator t nc.1 (normalizeDecorator t.currentLibrary.name nc.1 nc.2)) s

/-- The components step of `mergeConfig`. -/
def mergeComponentEntries (s : LoaderState)
    (entries : List (String × Decl)) : LoaderState :=
  entries.foldl
    (fun t nc => addComponent t nc.1 (normalizeComponent t.currentLibrary.name nc.1 nc.2)) s

/-- The babelPlugins step of `mergeConfig`:
`_forEachConfig(config.babelPlugins, this.addBabelPlugin)`. -/
def addBabelPluginEntries (s : LoaderState)
    (entries : List (String × Value)) : LoaderState :=
  entries.foldl (fun t pv => addBabelPlugin t pv.1 pv.2) s

/-- The options step of `mergeConfig`: `setOption` applied in order, aborting
on the first throw with earlier writes kept. -/
def setOptionList (s : LoaderState) : List (String × Value) → Outcome
  | [] => .ok s
  | (name, v) :: rest =>
    match setOption s name v with
    | .ok s' => setOptionList s' rest
    | other => other

/-- The result of probing a library root for its configuration file
(LibraryLoader.loadConfigFile): a valid static `.twistrc`, an invalid one, a
`.twistrc.js` exporting a document or a function of the options, or neither
file present. -/
inductive ConfigFile where
  | staticGood (doc : ConfigDoc)
  | staticBad
  | dynamicVal (doc : ConfigDoc)
  | dynamicFn (f : Value → ConfigDoc)
  | missing

/-- The external world: module resolution (`LibraryLoader.getRootDir`, `none`
meaning require.resolve throws), manifest reading (`package.json` name and
version at a resolved path; its presence is a precondition of resolution),
and configuration-file probing. -/
structure Env where
  resolve : String → Option String
  manifest : String → String × String
  configFile : String → ConfigFile

/-- Embedding of `LibraryLoader.loadConfigFile`; `libPath` is
`this.currentLibrary.path` at the call site. -/
def loadConfigFile (env : Env) (libPath : String) (options : Value) :
    Except TwistError (Option ConfigDoc) :=
  match env.configFile libPath with
  | .staticGood doc => .ok (some doc)
  | .staticBad => .error (.configParseError
      ("Invalid .twistrc file at " ++ libPath ++ "/.twistrc - please ensure it is valid JSON"))
  | .dynamicVal doc => .ok (some doc)
  | .dynamicFn f => .ok (some (f options))
  | .missing => .ok none

/-- The version-conflict message of `LibraryLoader.load`; `current` is
`this.currentLibrary` (the record just pushed). -/
def conflictMessage (current conflictLib : LibraryInfo) : String :=
  "You\x27re trying to load " ++ current.name ++ " " ++ current.version ++ ", but "
    ++ conflictLib.name ++ " " ++ conflictLib.version ++ " was already loaded:\n\n"
    ++ current.getLibraryChainStackTrace ++ "\n\n"
    ++ conflictLib.getLibraryChainStackTrace ++ "\n\n"

/-- A pending operation of the loader / merger recursion: a `load` call, a
`mergeConfig` call, or the sub-library loop of step 1 of `mergeConfig`. -/
inductive Req where
  | rload (libraryName : String) (options : Value)
  | rmerge (doc : ConfigDoc)
  | rlibs (entries : List (String × Value))

/-- Fuel-bounded interpreter of the mutual recursion between
`LibraryLoader.load` and `TwistConfiguration.mergeConfig`.

`.rload` is the body of `load(libraryName, options)`: resolve; return on a
registry entry with identical path and JSON-identical options; push a new
record and make it current; throw on a version conflict; locate and merge the
configuration (a missing file only warns); finally — on the normal path only,
the source has no try/finally — restore `currentLibrary` to
`libraryInfo.parentLibrary`, i.e. to the pre-call current record.

`.rmerge` is the body of `mergeConfig(config)`: sub-libraries first, then
decorators, components, babelPlugins, options, then the context-scoped
nested document (`config.context[this.context]`, which may be undefined, in
which case `mergeConfig` runs on its `\x7b\x7d` default parameter).

`.rlibs` is `_forEachConfig(config.libraries, this.addLibrary)`: one `load`
per entry, in order, aborting on a thrown error. -/
def run (env : Env) : Nat → Req → LoaderState → Outcome
  | 0, _, _ => .outOfFuel
  | fuel + 1, .rload libraryName options, s =>
    match env.resolve libraryName with
    | none => .err (.resolutionError
        ("Failed to resolve " ++ libraryName ++ " - is it installed?")) s
    | some libraryPath =>
      if s.libraryInfos.any
          (fun lib => lib.path == some libraryPath && lib.options == options) then
        .ok s
      else
        let nv := env.manifest libraryPath
        let libraryInfo : LibraryInfo :=
          .mkChild (some libraryPath) options nv.1 nv.2 s.currentLibrary
        let s1 : LoaderState :=
          { s with libraryInfos := s.libraryInfos ++ [libraryInfo]
                   currentLibrary := libraryInfo }
        match s1.libraryInfos.find?
            (fun lib => lib.name == nv.1 && lib.version != nv.2) with
        | some conflictLib =>
            .err (.versionConflictError (conflictMessage libraryInfo conflictLib)) s1
        | none =>
          let after : Outcome :=
            match loadConfigFile env libraryPath options with
            | .error e => .err e s1
            | .ok none => .ok s1
            | .ok (some doc) => run env fuel (.rmerge doc) s1
          match after with
          | .ok s2 => .ok { s2 with currentLibrary := s.currentLibrary }
          | other => other
  | fuel + 1, .rmerge doc, s =>
    let s0 : LoaderState := { s with mergeCount := s.mergeCount + 1 }
    match run env fuel (.rlibs (forEachConfig Value.truthy emptyObjVal doc.libraries)) s0 with
    | .ok s1 =>
      let s2 := mergeDecoratorEntries s1 (forEachConfig Decl.truthy emptyDecl doc.decorators)
      let s3 := mergeComponentEntries s2 (forEachConfig Decl.truthy emptyDecl doc.components)
      let s4 := addBabelPluginEntries s3 (forEachConfig Value.truthy emptyObjVal doc.babelPlugins)
      match setOptionList s4 (forEachConfig Value.truthy emptyObjVal doc.options) with
      | .ok s5 =>
        match doc.context with
        | none => .ok s5
        | some ctxMap =>
          match lookupVal ctxMap s5.context with
          | some d => run env fuel (.rmerge d) s5
          | none => run env fuel (.rmerge emptyDoc) s5
      | other => other
    | other => other
  | _ + 1, .rlibs [], s => .ok s
  | fuel + 1, .rlibs ((name, opts) :: rest), s =>
    match run env fuel (.rload name opts) s with
    | .ok s' => run env fuel (.rlibs rest) s'
    | other => other

/-- Embedding of `LibraryLoader.load(libraryName, options)`. -/
def load (env : Env) (fuel : Nat) (libraryName : String) (options : Value)
    (s : LoaderState) : Outcome :=
  run env fuel (.rload libraryName options) s

/-- Embedding of `TwistConfiguration.mergeConfig(config)` (also reached as
`this.config.mergeConfig` from the loader). -/
def mergeConfig (env : Env) (fuel : Nat) (doc : ConfigDoc)
    (s : LoaderState) : Outcome :=
  run env fuel (.rmerge doc) s

/-! Concrete environments used to exercise the embedding on the scenarios of
the testable properties (spec §8) and the repository's LibraryLoader test. -/

/-- A world with two library roots whose manifests report the same name with
different versions: `A` resolves to `/a` (libA 1.0) and `B` to `/b`
(libA 2.0); neither has a configuration file. -/
def envConflict : Env where
  resolve := fun name =>
    if name = "A" then some "/a" else if name = "B" then some "/b" else none
  manifest := fun p => if p = "/a" then ("libA", "1.0") else ("libA", "2.0")
  configFile := fun _ => .missing

/-- The record created by loading `A` in `envConflict` from a fresh state. -/
def recA : LibraryInfo := .mkChild (some "/a") emptyObjVal "libA" "1.0" rootSentinel

/-- The record created by the subsequent load of `B` in `envConflict`. -/
def recB : LibraryInfo := .mkChild (some "/b") emptyObjVal "libA" "2.0" rootSentinel

/-- The state after `load(A)` in `envConflict` from a fresh configuration. -/
def stateAfterA : LoaderState := { initState none [] with libraryInfos := [recA] }

/-- The state left behind by the failing `load(B)` call in `envConflict`. -/
def stateConflict : LoaderState :=
  { stateAfterA with libraryInfos := [recA, recB], currentLibrary := recB }

/-- A world with no resolvable libraries and no configuration files, for
exercising `mergeConfig` directly. -/
def envEmpty : Env where
  resolve := fun _ => none
  manifest := fun _ => ("", "")
  configFile := fun _ => .missing

/-- The ancestor lines of a load-chain trace as the spec describes them: one
line per ancestor of the form `└─ loaded by <name> <version>` (the version
and its separating space omitted when the version is empty, as at the
sentinel root), each line carrying two more leading spaces than the previous
one. -/
def ancestorLines (indent : Nat) : List (String × String) → List String
  | [] => []
  | nv :: rest =>
      (spaces indent ++ "└─ loaded by " ++ renderNameVersion nv.1 nv.2)
        :: ancestorLines (indent + 2) rest

/-- The load-chain trace as the spec describes it: the record's own
`name version` on the first line (four leading spaces), then the ancestor
lines starting at six leading spaces, the root of the chain last. -/
def claimChainTrace (l : LibraryInfo) : String :=
  String.intercalate "\n"
    ((spaces 4 ++ renderNameVersion l.name l.version) :: ancestorLines 6 l.ancestors)

/-- The four-deep chain of the repository's LibraryLoader duplicate-handling
test: LibraryB 4.0 loaded by LibraryC 3.0 loaded by LibraryB 2.0 loaded by
LibraryA 1.0 loaded by the sentinel root. -/
def testChainRecord : LibraryInfo :=
  .mkChild (some "/some/fake") (Value.mk "undefined") "LibraryB" "4.0"
    (.mkChild (some "/some/fake") (Value.mk "undefined") "LibraryC" "3.0"
      (.mkChild (some "/some/fake") (Value.mk "undefined") "LibraryB" "2.0"
        (.mkChild (some "/some/fake") (Value.mk "undefined") "LibraryA" "1.0"
          rootSentinel)))

/-- A state whose current library is named `@x/y`, as during the merge of
that library's own document. -/
def stateXY : LoaderState :=
  { initState none [] with
      currentLibrary := .mkChild (some "/xy") emptyObjVal "@x/y" "1.0" rootSentinel }

/-- A document declaring the single bare-name decorator `Store`. -/
def docStore : ConfigDoc :=
  .mk .absent (.arr [some (.bare "Store")]) .absent .absent .absent none

/-- The declaration recorded by the sub-library `L` for component `x`. -/
def declD1 : Decl := Decl.mk (some "@lib/l") (some "D1") none

/-- The declaration the outer document records for component `x`. -/
def declD2 : Decl := Decl.mk (some "@root/r") (some "D2") none

/-- The configuration document of the sub-library `L`. -/
def docL : ConfigDoc := .mk .absent .absent (.map [("x", declD1)]) .absent .absent none

/-- A world in which `L` resolves to `/L`, whose document is `docL`. -/
def envOverride : Env where
  resolve := fun name => if name = "L" then some "/L" else none
  manifest := fun _ => ("libL", "1.0")
  configFile := fun p => if p = "/L" then .staticGood docL else .missing

/-- A document declaring `libraries: [L]` and `components: \x7bx: D2\x7d`. -/
def docOuter : ConfigDoc :=
  .mk (.arr [some (.bare "L")]) .absent (.map [("x", declD2)]) .absent .absent none

/-- The same document without its own component declaration. -/
def docOnlyLib : ConfigDoc :=
  .mk (.arr [some (.bare "L")]) .absent .absent .absent .absent none

/-- The nested context document setting `regenerator` to true. -/
def docCtxInner : ConfigDoc :=
  .mk .absent .absent .absent .absent (.map [("regenerator", Value.mk "true")]) none

/-- A document with `options: \x7bregenerator: false\x7d` and
`context: \x7bwebpack: \x7boptions: \x7bregenerator: true\x7d\x7d\x7d`. -/
def docCtx : ConfigDoc :=
  .mk .absent .absent .absent .absent (.map [("regenerator", Value.mk "false")])
    (some [("webpack", docCtxInner)])

/-- The document of the idempotent-reload fixture library: one bare-name
decorator, no sub-libraries. -/
def docIdem : ConfigDoc :=
  .mk .absent (.arr [some (.bare "Store")]) .absent .absent .absent none

/-- A world with a single library `Lib` at `/lib` whose static configuration
is `docIdem`. -/
def envIdem : Env where
  resolve := fun name => if name = "Lib" then some "/lib" else none
  manifest := fun _ => ("lib", "1.0")
  configFile := fun p => if p = "/lib" then .staticGood docIdem else .missing

/-- The state after the first successful `load("Lib")` in `envIdem`. -/
def stateIdem : LoaderState :=
  match load envIdem 4 "Lib" emptyObjVal (initState none []) with
  | .ok s => s
  | _ => initState none []

/-- The plugin list the claim describes: the calls in first-registration
order, a call whose plugin reference was already seen dropped (keeping the
first registration's options).  `seen` accumulates the references already in
the list. -/
def firstRegs (seen : List String) : List (String × Value) → List (String × Value)
  | [] => []
  | (p, o) :: rest =>
    if p ∈ seen then firstRegs seen rest
    else (p, o) :: firstRegs (p :: seen) rest

def pluginState : LoaderState :=
  { initState none [] with
      babelPlugins := [("p1", Value.mk "1"), ("p2", Value.mk "2")] }

theorem traceLines_eq_ancestorLines (l : LibraryInfo) :
    ∀ indent : Nat, traceLines l indent false = ancestorLines indent l.chain := by
  induction l with
  | mkRoot p o n v =>
      intro indent
      simp [traceLines, ancestorLines, LibraryInfo.chain, String.append_assoc]
  | mkChild p o n v parent ih =>
      intro indent
      simp [traceLines, ancestorLines, LibraryInfo.chain, String.append_assoc, ih]

/-- C9: for every Library Record, the load-chain trace lists the record's own
`name version` on the first line, then one line per ancestor of the form
`└─ loaded by <name> <version>`, each line indented two more leading spaces
than the previous, ending at the sentinel root record (most specific identity
first, root of chain last); on the four-deep chain of the repository's
LibraryLoader test, the trace is exactly the string that test expects. -/
theorem C9_chain_trace :
    (∀ l : LibraryInfo, l.getLibraryChainStackTrace = claimChainTrace l) ∧
    testChainRecord.getLibraryChainStackTrace =
      "    LibraryB 4.0\n      └─ loaded by LibraryC 3.0\n        └─ loaded by LibraryB 2.0\n          └─ loaded by LibraryA 1.0\n            └─ loaded by (root)" := by
  constructor
  · intro l
    cases l with
    | mkRoot p o n v =>
        simp [LibraryInfo.getLibraryChainStackTrace, claimChainTrace, traceLines,
          ancestorLines, LibraryInfo.ancestors, LibraryInfo.name, LibraryInfo.version]
    | mkChild p o n v parent =>
        simp [LibraryInfo.getLibraryChainStackTrace, claimChainTrace, traceLines,
          ancestorLines, LibraryInfo.ancestors, LibraryInfo.name, LibraryInfo.version,
          traceLines_eq_ancestorLines]
  · decide

/-- C10 counterexample: the claim asserts `getOption(name)` returns the
absent value (`undefined`) for every name outside the recognized option
schema, but the source's `return this._options[name]` is a prototype-chain
property read: on a default-constructed configuration, `toString` is not a
recognized option key, yet the read yields the inherited
`Object.prototype.toString` function, not `undefined`. -/
theorem C10_counterexample :
    "toString" ∉ (initState none []).options.map Prod.fst ∧
    getOption (initState none []) "toString" = JsProp.protoFn "toString" ∧
    getOption (initState none []) "toString" ≠ JsProp.undefinedVal := by decide

/-- C10 (amended): reads of unknown options are silently permitted while
writes are not: for every name that is not an own key of the options object,
`getOption` does not fail and mutates nothing — it returns the inherited
`Object.prototype` member when the name is one of that prototype's property
names (such as `toString` or `constructor`) and the absent value
(`undefined`) otherwise — while `setOption` on the same name (inherited names
included, since its guard is `hasOwnProperty`) throws `UnknownOptionError`
carrying the state unchanged. -/
theorem C10_getOption_unknown (s : LoaderState) (name : String) (value : Value)
    (h : ∀ kv ∈ s.options, kv.1 ≠ name) :
    getOption s name =
      (if name ∈ OBJECT_PROTOTYPE_KEYS then JsProp.protoFn name else JsProp.undefinedVal) ∧
    setOption s name value =
      .err (.unknownOptionError
        ("Twist Configuration option " ++ name ++ " is not defined.")) s := by
  have hfind : s.options.find? (fun kv => kv.1 == name) = none := by
    rw [List.find?_eq_none]
    intro kv hkv
    simp [h kv hkv]
  have hany : s.options.any (fun kv => kv.1 == name) = false := by
    rw [List.any_eq_false]
    intro kv hkv
    simp [h kv hkv]
  constructor
  · simp [getOption, jsPropRead, lookupVal, hfind]
  · simp [setOption, hany]

theorem C10_witness :
    getOption (initState none []) "doesNotExist" = JsProp.undefinedVal ∧
    setOption (initState none []) "doesNotExist" (Value.mk "1") =
      .err (.unknownOptionError
        ("Twist Configuration option " ++ "doesNotExist" ++ " is not defined."))
        (initState none []) ∧
    getOption (initState none []) "toString" = JsProp.protoFn "toString" ∧
    setOption (initState none []) "toString" (Value.mk "1") =
      .err (.unknownOptionError
        ("Twist Configuration option " ++ "toString" ++ " is not defined."))
        (initState none []) :=
  ⟨((C10_getOption_unknown (initState none []) "doesNotExist" (Value.mk "1")
      (by decide)).1).trans (by decide),
   (C10_getOption_unknown (initState none []) "doesNotExist" (Value.mk "1")
      (by decide)).2,
   ((C10_getOption_unknown (initState none []) "toString" (Value.mk "1")
      (by decide)).1).trans (by decide),
   (C10_getOption_unknown (initState none []) "toString" (Value.mk "1")
      (by decide)).2⟩

/-- C7: decorator defaulting for entries merged from the document of the
library currently loading: a missing `module` defaults to the current
library's name, a missing `export` to the decorator's own name, a bare-string
`inherits` is normalized to an object with that export, whose missing
`module` then defaults to the current library's name; and the bare name
`Store` in library `@x/y` yields `module = "@x/y", export = "Store"` through
`mergeConfig` itself. -/
theorem C7_decorator_defaulting (lib name : String) (d : Decl) :
    (d.module = none → (normalizeDecorator lib name d).module = some lib) ∧
    (d.exportName = none → (normalizeDecorator lib name d).exportName = some name) ∧
    (∀ s2 : String, d.inherits = some (.str s2) → s2 ≠ "" →
      (normalizeDecorator lib name d).inherits = some (.obj (some lib) (some s2))) ∧
    (∀ e : Option String, d.inherits = some (.obj none e) →
      (normalizeDecorator lib name d).inherits = some (.obj (some lib) e)) ∧
    (mergeConfig envEmpty 2 docStore stateXY).postState.map
        (fun t => lookupVal t.decorators "Store")
      = some (some (Decl.mk (some "@x/y") (some "Store") none)) := by
  refine ⟨?_, ?_, ?_, ?_, by decide⟩
  · intro h; simp [normalizeDecorator, h, jsOr]
  · intro h; simp [normalizeDecorator, h, jsOr]
  · intro s2 h1 h2
    simp [normalizeDecorator, h1, inhTruthy, normalizeInherits, h2]
  · intro e h1
    simp [normalizeDecorator, h1, inhTruthy, normalizeInherits, jsOr]

theorem C7_witness :
    (normalizeDecorator "@x/y" "Store" emptyDecl).module = some "@x/y" ∧
    (normalizeDecorator "@x/y" "Store" emptyDecl).exportName = some "Store" ∧
    (normalizeDecorator "@x/y" "Store"
        (Decl.mk none none (some (.str "BaseStore")))).inherits
      = some (.obj (some "@x/y") (some "BaseStore")) ∧
    (normalizeDecorator "@x/y" "Store"
        (Decl.mk none none (some (.obj none (some "B"))))).inherits
      = some (.obj (some "@x/y") (some "B")) :=
  ⟨(C7_decorator_defaulting "@x/y" "Store" emptyDecl).1 rfl,
   (C7_decorator_defaulting "@x/y" "Store" emptyDecl).2.1 rfl,
   (C7_decorator_defaulting "@x/y" "Store"
      (Decl.mk none none (some (.str "BaseStore")))).2.2.1 "BaseStore" rfl (by decide),
   (C7_decorator_defaulting "@x/y" "Store"
      (Decl.mk none none (some (.obj none (some "B"))))).2.2.2.1 (some "B") rfl⟩

/-- C5: `mergeConfig` applies a document's declared sub-libraries before the
document's own declarations: for a document declaring `libraries: [L]` and
`components: \x7bx: D2\x7d`, where `L`'s document declares
`components: \x7bx: D1\x7d`, the final accumulated entry for `x` is `D2`;
dropping the outer declaration leaves the sub-library's `D1`, showing the
overwrite happened in that order. -/
theorem C5_override_ordering :
    Outcome.isOk (mergeConfig envOverride 6 docOuter (initState none [])) = true ∧
    (mergeConfig envOverride 6 docOuter (initState none [])).postState.map
        (fun t => lookupVal t.components "x") = some (some declD2) ∧
    (mergeConfig envOverride 6 docOnlyLib (initState none [])).postState.map
        (fun t => lookupVal t.components "x") = some (some declD1) := by decide

/-- C6: a nested document under `context[k]` is merged exactly when `k`
equals the Merger's own context name: merging `docCtx` yields
`getOption("regenerator") = true` under context `webpack` and `false` under
context `node`. -/
theorem C6_context_scoping :
    Outcome.isOk (mergeConfig envEmpty 3 docCtx (initState (some "webpack") [])) = true ∧
    (mergeConfig envEmpty 3 docCtx (initState (some "webpack") [])).postState.map
        (fun t => getOption t "regenerator") = some (JsProp.val (Value.mk "true")) ∧
    Outcome.isOk (mergeConfig envEmpty 3 docCtx (initState (some "node") [])) = true ∧
    (mergeConfig envEmpty 3 docCtx (initState (some "node") [])).postState.map
        (fun t => getOption t "regenerator") = some (JsProp.val (Value.mk "false")) := by decide

/-- C1 counterexample: the claim asserts that `load` restores the
current-library pointer even when an error propagates after the registry
insertion.  The source restores the pointer only as the last statement of the
normal path (there is no try/finally), so a `VersionConflictError` leaves the
pointer at the newly inserted record: loading `B` (libA 2.0) after `A`
(libA 1.0) in `envConflict` throws, and afterwards the pointer is `recB`,
not the pre-call sentinel root (which is `recB`'s parent). -/
theorem C1_counterexample :
    Outcome.isErr (load envConflict 4 "B" emptyObjVal stateAfterA) = true ∧
    (load envConflict 4 "B" emptyObjVal stateAfterA).postState.map
        (fun t => t.currentLibrary) = some recB ∧
    stateAfterA.currentLibrary = rootSentinel ∧
    recB.parentLibrary = some rootSentinel ∧
    recB ≠ rootSentinel := by decide

/-- C1 (amended): the Loader's current-library pointer is restored to its
value from before the call (the new record's parent) exactly when `load`
returns normally — including the duplicate no-op and missing-configuration
paths; when an error is raised after the registry insertion, the pointer is
left unrestored, as the counterexample shows. -/
theorem C1_load_ok_restores (env : Env) (fuel : Nat) (libraryName : String)
    (options : Value) (s s' : LoaderState)
    (h : load env fuel libraryName options s = .ok s') :
    s'.currentLibrary = s.currentLibrary := by
  cases fuel with
  | zero => simp [load, run] at h
  | succ n =>
    simp only [load, run] at h
    split at h
    · cases h
    · split at h
      · cases h; rfl
      · split at h
        · cases h
        · split at h <;> first
            | (cases h; rfl)
            | cases h
            | (exact absurd h (by solve_by_elim))

theorem C1_witness :
    load envConflict 4 "A" emptyObjVal (initState none []) = .ok stateAfterA ∧
    stateAfterA.currentLibrary = (initState none []).currentLibrary :=
  ⟨by decide,
   C1_load_ok_restores envConflict 4 "A" emptyObjVal (initState none []) stateAfterA
     (by decide)⟩

theorem objSet_mem {α : Type} (l : List (String × α)) (key : String) (v : α)
    (kv : String × α) (h : kv ∈ objSet l key v) : kv.1 = key ∨ kv ∈ l := by
  unfold objSet at h
  split at h
  · rcases List.mem_map.mp h with ⟨kv2, hmem, heq⟩
    by_cases hk : (kv2.1 == key) = true
    · rw [if_pos hk] at heq
      left; rw [← heq]
    · rw [if_neg hk] at heq
      right; rw [← heq]; exact hmem
  · rcases List.mem_append.mp h with h1 | h1
    · right; exact h1
    · left; rw [List.mem_singleton.mp h1]

theorem objAssign_mem {α : Type} (over : List (String × α)) :
    ∀ (base : List (String × α)) (kv : String × α), kv ∈ objAssign base over →
      kv ∈ base ∨ kv.1 ∈ over.map Prod.fst := by
  induction over with
  | nil => intro base kv h; left; exact h
  | cons e rest ih =>
    intro base kv h
    have h2 : kv ∈ objAssign (objSet base e.1 e.2) rest := h
    rcases ih (objSet base e.1 e.2) kv h2 with h3 | h3
    · rcases objSet_mem base e.1 e.2 kv h3 with h4 | h4
      · right; rw [List.map_cons]; rw [h4]; exact List.mem_cons_self _ _
      · left; exact h4
    · right; rw [List.map_cons]; exact List.mem_cons_of_mem _ h3

/-- C2 counterexample: the claim asserts the set of recognized option keys is
exactly the seven defaults and cannot be extended by constructor input.  The
constructor layers its options bag over the defaults with `Object.assign`, so
a constructor bag `\x7bfoo: 1\x7d` makes `foo` a recognized key: `setOption("foo", 2)`
then succeeds even though `foo` is not among the seven default keys. -/
theorem C2_counterexample :
    "foo" ∉ DEFAULT_OPTIONS.map Prod.fst ∧
    Outcome.isOk (setOption (initState none [("foo", Value.mk "1")]) "foo"
        (Value.mk "2")) = true ∧
    (setOption (initState none [("foo", Value.mk "1")]) "foo"
        (Value.mk "2")).postState.map (fun t => getOption t "foo")
      = some (JsProp.val (Value.mk "2")) := by decide

/-- C2 (amended): the recognized option keys are the seven default-schema
keys plus the keys of the constructor's options bag; for every name outside
that union, `setOption` fails with `UnknownOptionError` and leaves the state
unchanged.  Configuration documents cannot extend the set, since their
`options` entries all flow through `setOption`. -/
theorem C2_setOption_unknown (contextName : Option String)
    (ctorOptions : List (String × Value)) (name : String) (value : Value)
    (hd : ∀ kv ∈ DEFAULT_OPTIONS, kv.1 ≠ name)
    (hc : ∀ kv ∈ ctorOptions, kv.1 ≠ name) :
    setOption (initState contextName ctorOptions) name value =
      .err (.unknownOptionError
        ("Twist Configuration option " ++ name ++ " is not defined."))
        (initState contextName ctorOptions) := by
  have hany : (initState contextName ctorOptions).options.any
      (fun kv => kv.1 == name) = false := by
    rw [List.any_eq_false]
    intro kv hkv
    rcases objAssign_mem ctorOptions DEFAULT_OPTIONS kv hkv with h1 | h1
    · simp [hd kv h1]
    · rcases List.mem_map.mp h1 with ⟨kv2, hm2, he2⟩
      have hne := hc kv2 hm2
      rw [he2] at hne
      simp [hne]
  simp [setOption, hany]

theorem C2_witness :
    setOption (initState none []) "alsoNotAnOption" (Value.mk "1") =
      .err (.unknownOptionError
        ("Twist Configuration option " ++ "alsoNotAnOption" ++ " is not defined."))
        (initState none []) :=
  C2_setOption_unknown none [] "alsoNotAnOption" (Value.mk "1") (by decide) (by decide)

theorem find?_append_some {α : Type} (p : α → Bool) (l1 l2 : List α) (a : α)
    (h : l1.find? p = some a) : (l1 ++ l2).find? p = some a := by
  induction l1 with
  | nil => simp [List.find?] at h
  | cons x xs ih =>
    rw [List.cons_append]
    cases hx : p x with
    | true =>
      rw [List.find?_cons_of_pos _ hx] at h ⊢
      exact h
    | false =>
      rw [List.find?_cons_of_neg _ (by simp [hx])] at h ⊢
      exact ih h

/-- C3: a load that passes the duplicate check but whose manifest name equals
an existing registry entry's name with a different version fails with a
`VersionConflictError` whose message embeds the new record's load-chain trace
first and the conflicting existing record's trace second (`conflictMessage`),
and after the failure the registry contains both the conflicting entry and
the new record — the new record is not rolled back. -/
theorem C3_version_conflict (env : Env) (fuel : Nat) (libraryName : String)
    (options : Value) (s : LoaderState) (p n v : String)
    (conflictLib newRec : LibraryInfo) (s1 : LoaderState)
    (hres : env.resolve libraryName = some p)
    (hdup : s.libraryInfos.any
        (fun lib => lib.path == some p && lib.options == options) = false)
    (hman : env.manifest p = (n, v))
    (hconf : s.libraryInfos.find?
        (fun lib => lib.name == n && lib.version != v) = some conflictLib)
    (hnew : newRec = .mkChild (some p) options n v s.currentLibrary)
    (hs1 : s1 = { s with libraryInfos := s.libraryInfos ++ [newRec]
                         currentLibrary := newRec }) :
    load env (fuel + 1) libraryName options s =
      .err (.versionConflictError (conflictMessage newRec conflictLib)) s1 ∧
    conflictLib ∈ s1.libraryInfos ∧ newRec ∈ s1.libraryInfos := by
  subst hnew; subst hs1
  have hfind : (s.libraryInfos ++
      [LibraryInfo.mkChild (some p) options n v s.currentLibrary]).find?
        (fun lib => lib.name == n && lib.version != v) = some conflictLib :=
    find?_append_some _ _ _ _ hconf
  refine ⟨?_, ?_, ?_⟩
  · simp only [load, run, hres, hdup, hman]
    simp [hfind]
  · exact List.mem_append_left _ (List.mem_of_find?_eq_some hconf)
  · exact List.mem_append_right _ (List.mem_singleton_self _)

theorem C3_witness :
    load envConflict 4 "B" emptyObjVal stateAfterA =
      .err (.versionConflictError (conflictMessage recB recA)) stateConflict ∧
    recA ∈ stateConflict.libraryInfos ∧ recB ∈ stateConflict.libraryInfos :=
  C3_version_conflict envConflict 3 "B" emptyObjVal stateAfterA "/b" "libA" "2.0"
    recA recB stateConflict (by decide) (by decide) (by decide) (by decide)
    (by decide) (by decide)

theorem addBabelPlugin_libs (s : LoaderState) (p : String) (o : Value) :
    (addBabelPlugin s p o).libraryInfos = s.libraryInfos := by
  unfold addBabelPlugin; split <;> rfl

theorem mergeDecoratorEntries_libs (entries : List (String × Decl)) :
    ∀ s : LoaderState,
      (mergeDecoratorEntries s entries).libraryInfos = s.libraryInfos := by
  induction entries with
  | nil => intro s; rfl
  | cons e rest ih =>
    intro s
    exact ih (addDecorator s e.1 (normalizeDecorator s.currentLibrary.name e.1 e.2))

theorem mergeComponentEntries_libs (entries : List (String × Decl)) :
    ∀ s : LoaderState,
      (mergeComponentEntries s entries).libraryInfos = s.libraryInfos := by
  induction entries with
  | nil => intro s; rfl
  | cons e rest ih =>
    intro s
    exact ih (addComponent s e.1 (normalizeComponent s.currentLibrary.name e.1 e.2))

theorem addBabelPluginEntries_libs (entries : List (String × Value)) :
    ∀ s : LoaderState,
      (addBabelPluginEntries s entries).libraryInfos = s.libraryInfos := by
  induction entries with
  | nil => intro s; rfl
  | cons e rest ih =>
    intro s
    have h1 : addBabelPluginEntries s (e :: rest)
        = addBabelPluginEntries (addBabelPlugin s e.1 e.2) rest := rfl
    rw [h1, ih, addBabelPlugin_libs]

theorem setOptionList_libs (entries : List (String × Value)) :
    ∀ s : LoaderState,
      (setOptionList s entries).postState.map (fun t => t.libraryInfos)
        = some s.libraryInfos := by
  induction entries with
  | nil => intro s; rfl
  | cons e rest ih =>
    intro s
    obtain ⟨nm, v⟩ := e
    simp only [setOptionList, setOption]
    by_cases hc : (s.options.any fun kv => kv.1 == nm) = true
    · rw [if_pos hc]; exact ih _
    · rw [if_neg hc]; rfl

/-- Registry monotonicity: no operation of the loader / merger recursion ever
removes an entry from `libraryInfos`, whether it returns normally or throws. -/
theorem run_preserves_libs (env : Env) :
    ∀ (fuel : Nat) (req : Req) (s s' : LoaderState),
      (run env fuel req s).postState = some s' →
      ∀ x ∈ s.libraryInfos, x ∈ s'.libraryInfos := by
  intro fuel
  induction fuel with
  | zero =>
    intro req s s' h
    simp [run, Outcome.postState] at h
  | succ n ih =>
    intro req s s' h x hx
    match req with
    | .rload libraryName options =>
      simp only [run] at h
      split at h
      · -- resolve fails
        simp [Outcome.postState] at h
        exact h ▸ hx
      · split at h
        · -- duplicate no-op
          simp [Outcome.postState] at h
          exact h ▸ hx
        · split at h
          · -- version conflict
            simp [Outcome.postState] at h
            subst h
            simp [List.mem_append]
            exact Or.inl hx
          · -- config handling + restore
            split at h
            · -- restore branch: merge outcome was ok
              rename_i s2 heq
              simp only [Outcome.postState, Option.some.injEq] at h
              subst h
              split at heq
              · cases heq
              · cases heq
                simp [List.mem_append]
                exact Or.inl hx
              · rename_i doc heq2
                have hpost := congrArg Outcome.postState heq
                exact ih _ _ _ hpost x (by simp [List.mem_append]; exact Or.inl hx)
            · -- non-ok outcome propagated unchanged
              split at h
              · simp only [Outcome.postState, Option.some.injEq] at h
                subst h
                simp [List.mem_append]
                exact Or.inl hx
              · simp only [Outcome.postState, Option.some.injEq] at h
                subst h
                simp [List.mem_append]
                exact Or.inl hx
              · exact ih _ _ _ h x (by simp [List.mem_append]; exact Or.inl hx)
    | .rmerge doc =>
      simp only [run] at h
      split at h
      · -- sub-library loads succeeded
        rename_i s1a heq
        have hx1 : x ∈ s1a.libraryInfos :=
          ih _ _ _ (congrArg Outcome.postState heq) x hx
        split at h
        · -- setOptionList succeeded
          rename_i s5 heq5
          have hlib5 := setOptionList_libs
            (forEachConfig Value.truthy emptyObjVal doc.options)
            (addBabelPluginEntries
              (mergeComponentEntries
                (mergeDecoratorEntries s1a (forEachConfig Decl.truthy emptyDecl doc.decorators))
                (forEachConfig Decl.truthy emptyDecl doc.components))
              (forEachConfig Value.truthy emptyObjVal doc.babelPlugins))
          rw [heq5] at hlib5
          simp only [Outcome.postState, addBabelPluginEntries_libs,
            mergeComponentEntries_libs, mergeDecoratorEntries_libs] at hlib5
          have hlib5x : s5.libraryInfos = s1a.libraryInfos := by simpa using hlib5
          have hx5 : x ∈ s5.libraryInfos := by rw [hlib5x]; exact hx1
          split at h
          · -- no context key
            simp only [Outcome.postState, Option.some.injEq] at h
            subst h
            exact hx5
          · -- context key present
            split at h
            · exact ih _ _ _ h x hx5
            · exact ih _ _ _ h x hx5
        · -- setOptionList threw
          have hlib5 := setOptionList_libs
            (forEachConfig Value.truthy emptyObjVal doc.options)
            (addBabelPluginEntries
              (mergeComponentEntries
                (mergeDecoratorEntries s1a (forEachConfig Decl.truthy emptyDecl doc.decorators))
                (forEachConfig Decl.truthy emptyDecl doc.components))
              (forEachConfig Value.truthy emptyObjVal doc.babelPlugins))
          rw [h] at hlib5
          simp only [addBabelPluginEntries_libs, mergeComponentEntries_libs,
            mergeDecoratorEntries_libs] at hlib5
          have hlib5x : s'.libraryInfos = s1a.libraryInfos := by simpa using hlib5
          rw [hlib5x]
          exact hx1
      · -- sub-library loads threw or ran out of fuel
        exact ih _ _ _ h x hx
    | .rlibs entries =>
      cases entries with
      | nil =>
        simp only [run, Outcome.postState, Option.some.injEq] at h
        exact h ▸ hx
      | cons e rest =>
        obtain ⟨nm, o⟩ := e
        simp only [run] at h
        split at h
        · rename_i s2 heq
          have hx2 : x ∈ s2.libraryInfos :=
            ih _ _ _ (congrArg Outcome.postState heq) x hx
          exact ih _ _ _ h x hx2
        · exact ih _ _ _ h x hx

/-- A successful `load` leaves a registry entry with the resolved path and
the JSON-identical options bag (either it was already there — the duplicate
no-op — or the fresh record was pushed and, by registry monotonicity, it
survives the merge). -/
theorem load_ok_registers (env : Env) (fuel : Nat) (libraryName : String)
    (options : Value) (s s' : LoaderState) (p : String)
    (hres : env.resolve libraryName = some p)
    (h : load env fuel libraryName options s = .ok s') :
    ∃ lib ∈ s'.libraryInfos, lib.path = some p ∧ lib.options = options := by
  cases fuel with
  | zero => simp [load, run] at h
  | succ n =>
    simp only [load, run, hres] at h
    split at h
    · -- duplicate hit: the matching entry is already registered
      cases h
      rename_i hdup
      rcases List.any_eq_true.mp hdup with ⟨lib, hmem, hpred⟩
      rw [Bool.and_eq_true] at hpred
      rcases hpred with ⟨hp1, hp2⟩
      exact ⟨lib, hmem, by simpa using hp1, by simpa using hp2⟩
    · split at h
      · cases h
      · split at h
        · rename_i s2 heq
          cases h
          split at heq
          · cases heq
          · cases heq
            exact ⟨_, List.mem_append_right _ (List.mem_singleton_self _), rfl, rfl⟩
          · rename_i doc heq2
            have hpost := congrArg Outcome.postState heq
            have hmem := run_preserves_libs env n _ _ _ hpost _
              (List.mem_append_right _ (List.mem_singleton_self _))
            exact ⟨_, hmem, rfl, rfl⟩
        · split at h
          · cases h
          · cases h
            exact ⟨_, List.mem_append_right _ (List.mem_singleton_self _), rfl, rfl⟩
          · have hpost := congrArg Outcome.postState h
            have hmem := run_preserves_libs env n _ _ _ hpost _
              (List.mem_append_right _ (List.mem_singleton_self _))
            exact ⟨_, hmem, rfl, rfl⟩

/-- C4: calling `load(path, options)` again after a successful load with
JSON-identical options is an idempotent no-op: it returns with the state
unchanged (`.ok s1` with the same `s1`), so nothing is appended to the
registry and no second configuration-merge side effect occurs (the
instrumentation counter `mergeCount` is unchanged; the witness shows a run
in which it is exactly 1 across both calls). -/
theorem C4_idempotent_reload (env : Env) (fuel : Nat) (libraryName : String)
    (options : Value) (s0 s1 : LoaderState)
    (h : load env fuel libraryName options s0 = .ok s1) (fuel2 : Nat) :
    load env (fuel2 + 1) libraryName options s1 = .ok s1 := by
  cases hres : env.resolve libraryName with
  | none =>
    exfalso
    cases fuel with
    | zero => simp [load, run] at h
    | succ n => simp [load, run, hres] at h
  | some p =>
    rcases load_ok_registers env fuel libraryName options s0 s1 p hres h with
      ⟨lib, hmem, hpath, hopts⟩
    have hdup : s1.libraryInfos.any
        (fun lib => lib.path == some p && lib.options == options) = true :=
      List.any_eq_true.mpr ⟨lib, hmem, by simp [hpath, hopts]⟩
    simp [load, run, hres, hdup]

theorem C4_witness :
    load envIdem 4 "Lib" emptyObjVal (initState none []) = .ok stateIdem ∧
    load envIdem 4 "Lib" emptyObjVal stateIdem = .ok stateIdem ∧
    stateIdem.mergeCount = 1 ∧ stateIdem.libraryInfos.length = 1 :=
  ⟨by decide,
   C4_idempotent_reload envIdem 4 "Lib" emptyObjVal (initState none []) stateIdem
     (by decide) 3,
   by decide, by decide⟩

theorem firstRegs_congr (l : List (String × Value)) :
    ∀ (s1 s2 : List String), (∀ q : String, q ∈ s1 ↔ q ∈ s2) →
      firstRegs s1 l = firstRegs s2 l := by
  induction l with
  | nil => intro s1 s2 h; rfl
  | cons e rest ih =>
    intro s1 s2 h
    obtain ⟨p, o⟩ := e
    simp only [firstRegs]
    by_cases hp : p ∈ s1
    · rw [if_pos hp, if_pos ((h p).mp hp)]
      exact ih s1 s2 h
    · rw [if_neg hp, if_neg (fun hq => hp ((h p).mpr hq))]
      have h2 := ih (p :: s1) (p :: s2) (by intro q; simp [h q])
      rw [h2]

theorem addBabelPluginEntries_spec (calls : List (String × Value)) :
    ∀ s : LoaderState,
      (addBabelPluginEntries s calls).babelPlugins
        = s.babelPlugins ++ firstRegs (s.babelPlugins.map Prod.fst) calls := by
  induction calls with
  | nil => intro s; simp [addBabelPluginEntries, firstRegs]
  | cons e rest ih =>
    intro s
    obtain ⟨p, o⟩ := e
    have h1 : addBabelPluginEntries s ((p, o) :: rest)
        = addBabelPluginEntries (addBabelPlugin s p o) rest := rfl
    rw [h1, ih]
    by_cases hany : (s.babelPlugins.any fun item => item.1 == p) = true
    · have hmem : p ∈ s.babelPlugins.map Prod.fst := by
        rcases List.any_eq_true.mp hany with ⟨item, hm, hp⟩
        exact List.mem_map.mpr ⟨item, hm, by simpa using hp⟩
      simp [addBabelPlugin, hany, firstRegs, hmem]
    · have hnmem : p ∉ s.babelPlugins.map Prod.fst := by
        intro hc
        rcases List.mem_map.mp hc with ⟨item, hm, he⟩
        exact absurd (List.any_eq_true.mpr ⟨item, hm, by simp [he]⟩) hany
      have hcongr := firstRegs_congr rest
        (s.babelPlugins.map Prod.fst ++ [p])
        (p :: s.babelPlugins.map Prod.fst)
        (by intro q; simp [or_comm])
      simp [addBabelPlugin, hany, firstRegs, hnmem, hcongr, List.append_assoc]

/-- C8: folding `addBabelPlugin` over any call sequence yields the plugin
list in first-registration order with duplicate references silently dropped
(`firstRegs`), and a single call whose reference is already registered leaves
the list (indeed the whole state) unchanged — neither merged nor replaced. -/
theorem C8_babel_plugin_order :
    (∀ calls : List (String × Value),
      (addBabelPluginEntries (initState none []) calls).babelPlugins
        = firstRegs [] calls) ∧
    (∀ (s : LoaderState) (p : String) (o : Value),
      s.babelPlugins.any (fun item => item.1 == p) = true →
      addBabelPlugin s p o = s) := by
  constructor
  · intro calls
    have h := addBabelPluginEntries_spec calls (initState none [])
    simpa [initState] using h
  · intro s p o h
    simp [addBabelPlugin, h]

theorem C8_witness :
    (addBabelPluginEntries (initState none [])
        [("p1", Value.mk "1"), ("p2", Value.mk "2"), ("p1", Value.mk "3")]).babelPlugins
      = [("p1", Value.mk "1"), ("p2", Value.mk "2")] ∧
    addBabelPlugin pluginState "p1" (Value.mk "3") = pluginState :=
  ⟨(C8_babel_plugin_order.1
      [("p1", Value.mk "1"), ("p2", Value.mk "2"), ("p1", Value.mk "3")]).trans (by decide),
   C8_babel_plugin_order.2 pluginState "p1" (Value.mk "3") (by decide)⟩

end TwistConfig
